import Mathlib

/-!
Verification development for the NL2SQL RAG system's SQL safety components:
a shallow embedding of `validator.py` (SQLValidator) and `query_executor.py`
(QueryExecutor) together with theorems about the specified behaviour.

SQL text is modelled as `List Char`; machine strings are converted at the
boundary with `String.data`/`String.mk`.  Python's ASCII-relevant behaviour of
`str.upper`, `str.strip`, slicing and the specific regular expressions used by
the source are embedded as executable Lean functions.
-/

namespace NL2SQL

/-- Whitespace characters recognised by Python's `str.strip()` and `\s`
(ASCII fragment). -/
def pyWs (c : Char) : Bool :=
  c = ' ' || c = '\t' || c = '\n' || c = '\r' || c = '\x0b' || c = '\x0c'

/-- Word characters for Python's `\b` word boundary (ASCII fragment of `\w`). -/
def isWordChar (c : Char) : Bool :=
  c.isAlphanum || c = '_'

/-- Python `str.strip()` on a character list: drop leading and trailing
whitespace. -/
def pyStrip (l : List Char) : List Char :=
  ((l.dropWhile pyWs).reverse.dropWhile pyWs).reverse

/-- Uppercase a character list, modelling Python `str.upper()` (ASCII). -/
def upper (l : List Char) : List Char :=
  l.map Char.toUpper

/-- Boolean substring containment (Python's `in` on strings). -/
def containsSeq (pat s : List Char) : Bool :=
  decide (pat <:+: s)

/-- Match a literal character sequence at the head of the input, returning the
remainder on success. -/
def matchChars : List Char → List Char → Option (List Char)
  | [], s => some s
  | _ :: _, [] => none
  | p :: ps, c :: cs => if c = p then matchChars ps cs else none

/-- Case-insensitive variant of `matchChars` (the pattern is given in upper
case, input characters are uppercased before comparison). -/
def matchCharsCI : List Char → List Char → Option (List Char)
  | [], s => some s
  | _ :: _, [] => none
  | p :: ps, c :: cs => if c.toUpper = p then matchCharsCI ps cs else none

/-- Greedy `\s+`: consume one or more whitespace characters. -/
def matchWs1 (s : List Char) : Option (List Char) :=
  match s with
  | c :: cs => if pyWs c then some (cs.dropWhile pyWs) else none
  | [] => none

/-- Greedy `\d+`: split off one or more leading decimal digits. -/
def matchDigits1 (s : List Char) : Option (List Char × List Char) :=
  match s.span Char.isDigit with
  | (ds, rest) => if ds.isEmpty then none else some (ds, rest)

/-- Numeric value of a digit list (decimal). -/
def digitsToNat (ds : List Char) : Nat :=
  ds.foldl (fun acc c => 10 * acc + (c.toNat - 48)) 0

/-- Match the regular expression `LIMIT\s+\d+` at the head of the input
(case-sensitive, as used by `re.search` over the uppercased SQL).  Returns the
matched prefix before the digits, the digit run and the remainder. -/
def matchLimitExact (s : List Char) : Option (List Char × List Char × List Char) :=
  match matchChars ("LIMIT".data) s with
  | none => none
  | some r1 =>
    match matchWs1 r1 with
    | none => none
    | some r2 =>
      match matchDigits1 r2 with
      | none => none
      | some (ds, rest) =>
        some ("LIMIT".data ++ r1.take (r1.length - r2.length), ds, rest)

/-- Match `LIMIT\s+\d+` case-insensitively at the head of the input, as used by
`re.sub(..., flags=re.IGNORECASE)` over the original-case SQL. -/
def matchLimitCI (s : List Char) : Option (List Char × List Char × List Char) :=
  match matchCharsCI ("LIMIT".data) s with
  | none => none
  | some r1 =>
    match matchWs1 r1 with
    | none => none
    | some r2 =>
      match matchDigits1 r2 with
      | none => none
      | some (ds, rest) =>
        some (s.take (s.length - r2.length), ds, rest)

/-- First match of `re.search(r'LIMIT\s+(\d+)', s)`: the numeric value of the
leftmost `LIMIT\s+\d+` occurrence. -/
def firstLimitNum : List Char → Option Nat
  | [] => none
  | c :: cs =>
    match matchLimitExact (c :: cs) with
    | some (_, ds, _) => some (digitsToNat ds)
    | none => firstLimitNum cs

/-- `re.sub(r'LIMIT\s+\d+', f'LIMIT {cap}', s, flags=re.IGNORECASE)`: replace
every non-overlapping leftmost occurrence by the literal replacement text.
Fuel-driven scan; `fuel = s.length` suffices since every step consumes at
least one character. -/
def subAllLimitGo (cap : Nat) : Nat → List Char → List Char
  | 0, s => s
  | _ + 1, [] => []
  | fuel + 1, c :: cs =>
    match matchLimitCI (c :: cs) with
    | some (_, _, rest) =>
      ("LIMIT ".data ++ (toString cap).data) ++ subAllLimitGo cap fuel rest
    | none => c :: subAllLimitGo cap fuel cs

def subAllLimit (cap : Nat) (s : List Char) : List Char :=
  subAllLimitGo cap s.length s

/-- Python `sql_query[:-1].strip()` applied when `sql_query.endswith(';')`:
the trailing-semicolon strip performed by `_add_limit_clause`. -/
def stripSemi (q : List Char) : List Char :=
  if q.getLast? = some ';' then pyStrip q.dropLast else q

/-- Embedding of `QueryExecutor._add_limit_clause` (query_executor.py,
lines 134-159).  `cap` is `self.max_rows`. -/
def add_limit_clause (cap : Nat) (q : List Char) : List Char :=
  let sqlUpper := pyStrip (upper q)
  let q1 := stripSemi q
  if containsSeq ("LIMIT".data) sqlUpper then
    match firstLimitNum sqlUpper with
    | some n => if n > cap then subAllLimit cap q1 else q1
    | none => q1
  else
    q1 ++ (" LIMIT ".data ++ (toString cap).data)

/-- Replace only the digits of the leftmost case-insensitive `LIMIT\s+\d+`
occurrence with `cap`, leaving all other characters verbatim.  This is the
spec's reading of the limit rewrite ("that numeric value is replaced by
rowCap while every other clause is preserved verbatim"). -/
def replaceFirstLimitNum (cap : Nat) : List Char → List Char
  | [] => []
  | c :: cs =>
    match matchLimitCI (c :: cs) with
    | some (pre, _, rest) => pre ++ (toString cap).data ++ rest
    | none => c :: replaceFirstLimitNum cap cs

/-- The claim's trichotomy for the limit rewrite, as stated: no LIMIT means the
result ends in `LIMIT <cap>`; a first LIMIT value above `cap` means only that
numeric value is replaced (everything else verbatim, after the trailing
semicolon strip); a first LIMIT value at or below `cap` means the query is
unchanged apart from the trailing-semicolon strip. -/
def limitTrichotomyClaim (cap : Nat) (q : List Char) : Bool :=
  let u := pyStrip (upper q)
  let r := add_limit_clause cap q
  if containsSeq ("LIMIT".data) u then
    match firstLimitNum u with
    | some n =>
      if n > cap then r = replaceFirstLimitNum cap (stripSemi q)
      else r = stripSemi q
    | none => true
  else
    ("LIMIT ".data ++ (toString cap).data).isSuffixOf r

theorem matchChars_eq {p s r : List Char} (h : matchChars p s = some r) :
    s = p ++ r := by
  induction p generalizing s with
  | nil =>
    simp [matchChars] at h
    simp [h]
  | cons a ps ih =>
    cases s with
    | nil => simp [matchChars] at h
    | cons c cs =>
      simp only [matchChars] at h
      split at h
      · next hc =>
        subst hc
        simp [ih h]
      · exact absurd h (by simp)

theorem firstLimitNum_contains {s : List Char} {n : Nat}
    (h : firstLimitNum s = some n) :
    containsSeq ("LIMIT".data) s = true := by
  induction s with
  | nil => simp [firstLimitNum] at h
  | cons c cs ih =>
    simp only [firstLimitNum] at h
    simp only [containsSeq, decide_eq_true_eq]
    cases hm : matchLimitExact (c :: cs) with
    | some v =>
      have hmc : ∃ r1, matchChars ("LIMIT".data) (c :: cs) = some r1 := by
        simp only [matchLimitExact] at hm
        cases hx : matchChars ("LIMIT".data) (c :: cs) with
        | none => rw [hx] at hm; exact absurd hm (by simp)
        | some r1 => exact ⟨r1, rfl⟩
      obtain ⟨r1, hr1⟩ := hmc
      have hpre : "LIMIT".data <+: c :: cs := ⟨r1, (matchChars_eq hr1).symm⟩
      exact hpre.isInfix
    | none =>
      rw [hm] at h
      have := ih h
      simp only [containsSeq, decide_eq_true_eq] at this
      exact this.trans (List.suffix_cons c cs).isInfix

/-- Keyword regular-expression shape used by the validator: either `\bW1\b`
or `\bW1\s+W2\b`. -/
structure KwPat where
  w1 : List Char
  w2 : Option (List Char)

/-- First character of the remainder is a word character (relevant for the
trailing `\b`). -/
def headWordChar : List Char → Bool
  | [] => false
  | c :: _ => isWordChar c

/-- Try to match a keyword pattern at the head of `s`; `prevWord` says whether
the character just before `s` is a word character (for the leading `\b`). -/
def matchKwPat (p : KwPat) (prevWord : Bool) (s : List Char) : Option (List Char) :=
  if prevWord then none
  else
    match matchChars p.w1 s with
    | none => none
    | some r1 =>
      match p.w2 with
      | none => if headWordChar r1 then none else some r1
      | some w2 =>
        match matchWs1 r1 with
        | none => none
        | some r2 =>
          match matchChars w2 r2 with
          | none => none
          | some r3 => if headWordChar r3 then none else some r3

/-- Whether the last character of a matched pattern is a word character (it is
the `prevWord` state for the next scan position). -/
def patLastWord (p : KwPat) : Bool :=
  isWordChar (((p.w2.getD p.w1).getLast?).getD ' ')

/-- Count the non-overlapping, leftmost matches of a keyword pattern, as
`re.findall` does.  Fuel-driven; `fuel = s.length` suffices since every step
consumes at least one character. -/
def countPatGo (p : KwPat) : Nat → Bool → List Char → Nat
  | 0, _, _ => 0
  | _ + 1, _, [] => 0
  | fuel + 1, prev, c :: cs =>
    match matchKwPat p prev (c :: cs) with
    | some rest => 1 + countPatGo p fuel (patLastWord p) rest
    | none => countPatGo p fuel (isWordChar c) cs

def countPat (p : KwPat) (s : List Char) : Nat :=
  countPatGo p s.length false s

/-- Presence of a keyword pattern, as `re.search` reports it. -/
def hasPat (p : KwPat) (s : List Char) : Bool :=
  countPat p s != 0

def execPat : KwPat := ⟨"EXEC".data, none⟩
def executePat : KwPat := ⟨"EXECUTE".data, none⟩
def loadFilePat : KwPat := ⟨"LOAD_FILE".data, none⟩
def intoOutfilePat : KwPat := ⟨"INTO".data, some "OUTFILE".data⟩

/-- Embedding of `SQLValidator._check_dangerous_patterns` (validator.py,
lines 254-277): the semicolon test runs on the raw input minus its final
character, the pattern tests on the uppercased input. -/
def check_dangerous_patterns (q : List Char) : List String :=
  let u := upper q
  (if q.dropLast.contains ';' then ["Multiple SQL statements not allowed"] else [])
    ++ (if containsSeq ("--".data) u then ["SQL comments not allowed"] else [])
    ++ (if containsSeq ("/*".data) u then ["Multi-line comments not allowed"] else [])
    ++ (if hasPat execPat u then ["EXEC command not allowed"] else [])
    ++ (if hasPat executePat u then ["EXECUTE command not allowed"] else [])
    ++ (if hasPat intoOutfilePat u then ["INTO OUTFILE not allowed"] else [])
    ++ (if hasPat loadFilePat u then ["LOAD_FILE not allowed"] else [])

theorem mem_ite_singleton {α : Type _} (x m : α) (c : Prop) [Decidable c] :
    x ∈ (if c then [m] else ([] : List α)) ↔ c ∧ x = m := by
  split <;> simp_all

/-- C1 (counterexample): on a query holding two LIMIT clauses whose first
numeric value exceeds the row cap, the rewrite does not preserve the other
clauses verbatim (the second, in-bounds `LIMIT 3` is rewritten to
`LIMIT 1000` as well), so the claimed trichotomy is false at this input with
the default row cap 1000. -/
theorem claim_C1_counterexample :
    limitTrichotomyClaim 1000
      ("SELECT * FROM (SELECT a FROM t LIMIT 2000) x LIMIT 3".data) = false := by
  decide

/-- C1 (amended): the limit rewrite satisfies the trichotomy in this form: if
the uppercased, stripped text contains no `LIMIT`, the result is the
semicolon-stripped query with ` LIMIT <cap>` appended (hence it ends with
`LIMIT <cap>`); if the first `LIMIT <n>` occurrence has `n > cap`, then EVERY
case-insensitive `LIMIT <number>` occurrence is rewritten to `LIMIT <cap>`
(the `re.sub` semantics), not only the matched one; if `n ≤ cap` the query is
unchanged apart from the trailing-semicolon strip. -/
theorem add_limit_clause_trichotomy (cap : Nat) (q : List Char) :
    (containsSeq ("LIMIT".data) (pyStrip (upper q)) = false →
      add_limit_clause cap q = stripSemi q ++ (" LIMIT ".data ++ (toString cap).data) ∧
      ("LIMIT ".data ++ (toString cap).data) <:+ add_limit_clause cap q) ∧
    (∀ n, firstLimitNum (pyStrip (upper q)) = some n → cap < n →
      add_limit_clause cap q = subAllLimit cap (stripSemi q)) ∧
    (∀ n, firstLimitNum (pyStrip (upper q)) = some n → n ≤ cap →
      add_limit_clause cap q = stripSemi q) := by
  refine ⟨fun hno => ?_, fun n hn hlt => ?_, fun n hn hle => ?_⟩
  · have he : add_limit_clause cap q
        = stripSemi q ++ (" LIMIT ".data ++ (toString cap).data) := by
      simp [add_limit_clause, hno]
    refine ⟨he, ?_⟩
    rw [he]
    exact ⟨stripSemi q ++ [' '], by simp⟩
  · have hc := firstLimitNum_contains hn
    simp [add_limit_clause, hc, hn, Nat.lt_iff_add_one_le.mp hlt,
      Nat.lt_of_lt_of_le hlt (Nat.le_refl n), hlt]
  · have hc := firstLimitNum_contains hn
    simp [add_limit_clause, hc, hn, Nat.not_lt.mpr hle]

/-- C1 (witness): instantiating the amended trichotomy on a concrete query in
its second branch. -/
theorem add_limit_clause_trichotomy_witness :
    add_limit_clause 1000 ("SELECT a FROM t LIMIT 2000".data)
      = subAllLimit 1000 (stripSemi ("SELECT a FROM t LIMIT 2000".data)) :=
  (add_limit_clause_trichotomy 1000
      ("SELECT a FROM t LIMIT 2000".data)).2.1 2000 (by decide) (by decide)

/-- C2 (counterexample): for the input `"SELECT 1; "` (trailing blank), the
semicolon sits at the final position of the trimmed text, so the claimed
condition is false, yet the check reports "Multiple SQL statements not
allowed" because it inspects the raw input minus its last character. -/
theorem claim_C2_counterexample :
    ¬ (("Multiple SQL statements not allowed"
          ∈ check_dangerous_patterns ("SELECT 1; ".data))
        ↔ ';' ∈ (pyStrip ("SELECT 1; ".data)).dropLast) := by
  decide

/-- C2 (amended): the "Multiple SQL statements not allowed" violation is
produced if and only if a `;` occurs before the final character of the RAW
(untrimmed) input text. -/
theorem check_dangerous_multiple_iff (q : List Char) :
    "Multiple SQL statements not allowed" ∈ check_dangerous_patterns q
      ↔ ';' ∈ q.dropLast := by
  have h1 : ("Multiple SQL statements not allowed" : String)
      ≠ "SQL comments not allowed" := by decide
  have h2 : ("Multiple SQL statements not allowed" : String)
      ≠ "Multi-line comments not allowed" := by decide
  have h3 : ("Multiple SQL statements not allowed" : String)
      ≠ "EXEC command not allowed" := by decide
  have h4 : ("Multiple SQL statements not allowed" : String)
      ≠ "EXECUTE command not allowed" := by decide
  have h5 : ("Multiple SQL statements not allowed" : String)
      ≠ "INTO OUTFILE not allowed" := by decide
  have h6 : ("Multiple SQL statements not allowed" : String)
      ≠ "LOAD_FILE not allowed" := by decide
  simp only [check_dangerous_patterns, List.mem_append, mem_ite_singleton,
    h1, h2, h3, h4, h5, h6, and_false, or_false, and_true]
  simp

def innerJoinPat : KwPat := ⟨"INNER".data, some "JOIN".data⟩
def leftJoinPat : KwPat := ⟨"LEFT".data, some "JOIN".data⟩
def rightJoinPat : KwPat := ⟨"RIGHT".data, some "JOIN".data⟩
def fullJoinPat : KwPat := ⟨"FULL".data, some "JOIN".data⟩
def crossJoinPat : KwPat := ⟨"CROSS".data, some "JOIN".data⟩
def joinPat : KwPat := ⟨"JOIN".data, none⟩

/-- Join pattern list of `_count_joins`, in source order. -/
def joinPatterns : List KwPat :=
  [innerJoinPat, leftJoinPat, rightJoinPat, fullJoinPat, crossJoinPat, joinPat]

/-- Embedding of `SQLValidator._count_joins` (validator.py, lines 100-118):
sum of the `re.findall` counts of all six join patterns over the uppercased
statement text. -/
def count_joins (q : List Char) : Nat :=
  (joinPatterns.map (fun p => countPat p (upper q))).sum

/-- C5: a SQL text with exactly one `LEFT\s+JOIN` occurrence, exactly one
`\bJOIN\b` occurrence (the one inside it) and no other qualified join pattern
is counted twice by `_count_joins`: once by the `LEFT JOIN` pattern and once
by the generic `JOIN` pattern. -/
theorem count_joins_single_left_join (s : List Char)
    (hL : countPat leftJoinPat (upper s) = 1)
    (hJ : countPat joinPat (upper s) = 1)
    (hI : countPat innerJoinPat (upper s) = 0)
    (hR : countPat rightJoinPat (upper s) = 0)
    (hF : countPat fullJoinPat (upper s) = 0)
    (hC : countPat crossJoinPat (upper s) = 0) :
    count_joins s = 2 := by
  simp [count_joins, joinPatterns, hL, hJ, hI, hR, hF, hC]

/-- C5 (witness): a concrete single LEFT JOIN query is counted as 2 joins. -/
theorem count_joins_single_left_join_witness :
    count_joins ("SELECT * FROM a LEFT JOIN b ON a.x = b.x".data) = 2 :=
  count_joins_single_left_join _ (by decide) (by decide) (by decide)
    (by decide) (by decide) (by decide)

/-- C6: `_count_joins` is invariant under letter case of its input: any two
texts with the same uppercasing are counted identically (the function only
ever inspects the uppercased text). -/
theorem count_joins_case_invariant (s t : List Char)
    (h : upper s = upper t) :
    count_joins s = count_joins t := by
  simp only [count_joins, h]

/-- C6 (witness): instantiation on `left join` versus `LEFT Join`. -/
theorem count_joins_case_invariant_witness :
    count_joins ("x left join y".data) = count_joins ("x LEFT Join y".data) :=
  count_joins_case_invariant _ _ (by decide)

/-- Token types of the sqlparse lexer that the validator inspects
(`ttype is DML`, `ttype is Keyword`, whitespace, …).  Grouped nodes have
`ttype None` in sqlparse and are modelled by `Tok.group`. -/
inductive TType where
  | dml
  | keyword
  | nameT
  | punct
  | ws
  | wildcard
  | opT
  | lit
  | commentT

/-- Group classes of sqlparse that the validator distinguishes with
`isinstance` checks. -/
inductive GKind where
  | statement
  | whereG
  | parens
  | ident
  | identList
  | comparison
  | funcG
  | operationG
  | other

/-- Shallow model of a sqlparse token tree. -/
inductive Tok where
  | atom (tt : TType) (s : String)
  | group (k : GKind) (children : List Tok)

mutual

/-- Flat text of a token (`str(token)` in sqlparse). -/
def Tok.chars : Tok → List Char
  | .atom _ s => s.data
  | .group _ cs => charsList cs

def charsList : List Tok → List Char
  | [] => []
  | t :: ts => t.chars ++ charsList ts

end

/-- Child tokens of a node (`token.tokens`; plain tokens have none). -/
def Tok.children : Tok → List Tok
  | .atom _ _ => []
  | .group _ cs => cs

def headIsParen : List Char → Bool
  | '(' :: _ => true
  | _ => false

/-- The actual subquery test of `_count_subquery_depth`: the stripped token
text starts with `(` and contains `SELECT` anywhere (case-insensitively via
upper-casing). -/
def codeSubqCond (t : Tok) : Bool :=
  let s := pyStrip t.chars
  headIsParen s && containsSeq ("SELECT".data) (upper s)

mutual

/-- Embedding of `SQLValidator._count_subquery_depth` (validator.py,
lines 120-136): recursive maximum over grouped tokens, incrementing the
current depth at groups satisfying `codeSubqCond`. -/
def count_subquery_depth : Tok → Nat → Nat
  | .atom _ _, d => d
  | .group _ cs, d => depthList cs d d

def depthList : List Tok → Nat → Nat → Nat
  | [], _, m => m
  | .atom _ _ :: ts, d, m => depthList ts d m
  | .group k cs :: ts, d, m =>
    let d' := if codeSubqCond (.group k cs) then d + 1 else d
    depthList ts d (max m (count_subquery_depth (.group k cs) d'))

end

def subquery_depth (st : Tok) : Nat :=
  count_subquery_depth st 0

mutual

/-- Depth in the spec's style with the code's subquery test: a qualifying
group contributes 1 plus the maximum over its descendants, the root value is
the maximum over all nodes (0 when none qualify). -/
def specDepthCode : Tok → Nat
  | .atom _ _ => 0
  | .group _ cs => specDepthCodeList cs

def specDepthCodeList : List Tok → Nat
  | [] => 0
  | .atom _ _ :: ts => specDepthCodeList ts
  | .group k cs :: ts =>
    max ((if codeSubqCond (.group k cs) then 1 else 0)
        + specDepthCode (.group k cs))
      (specDepthCodeList ts)

end

/-- Whether the text begins with the token `SELECT` (case-insensitive, with a
word boundary after it). -/
def startsWithSelectTok (s : List Char) : Bool :=
  match matchCharsCI ("SELECT".data) s with
  | some r => !headWordChar r
  | none => false

/-- The claim's subquery test: a parenthesized group whose first
non-whitespace token after the `(` is `SELECT`. -/
def claimSubqCond (t : Tok) : Bool :=
  match pyStrip t.chars with
  | '(' :: rest => startsWithSelectTok (rest.dropWhile pyWs)
  | _ => false

mutual

/-- Depth in the spec's style with the claim's subquery test
(first non-whitespace token after `(` is `SELECT`). -/
def specDepthClaim : Tok → Nat
  | .atom _ _ => 0
  | .group _ cs => specDepthClaimList cs

def specDepthClaimList : List Tok → Nat
  | [] => 0
  | .atom _ _ :: ts => specDepthClaimList ts
  | .group k cs :: ts =>
    max ((if claimSubqCond (.group k cs) then 1 else 0)
        + specDepthClaim (.group k cs))
      (specDepthClaimList ts)

end

mutual

theorem count_subquery_depth_eq (t : Tok) (d : Nat) :
    count_subquery_depth t d = d + specDepthCode t := by
  cases t with
  | atom tt s => simp [count_subquery_depth, specDepthCode]
  | group k cs =>
    rw [count_subquery_depth, specDepthCode,
      depthList_eq cs d d (Nat.le_refl d)]
    omega

theorem depthList_eq (ts : List Tok) (d m : Nat) (h : d ≤ m) :
    depthList ts d m = max m (d + specDepthCodeList ts) := by
  cases ts with
  | nil =>
    rw [depthList, specDepthCodeList]
    omega
  | cons t ts =>
    cases t with
    | atom tt s => rw [depthList, specDepthCodeList, depthList_eq ts d m h]
    | group k cs =>
      rw [depthList, specDepthCodeList]
      rw [count_subquery_depth_eq (.group k cs)]
      rw [depthList_eq ts d _ (by omega)]
      rw [specDepthCode]
      split <;> omega

end

/-- Token tree of `SELECT * FROM t` as sqlparse produces it. -/
def stmtQ0 : Tok :=
  .group .statement
    [.atom .dml "SELECT", .atom .ws " ", .atom .wildcard "*", .atom .ws " ",
     .atom .keyword "FROM", .atom .ws " ", .group .ident [.atom .nameT "t"]]

/-- Token tree of `(SELECT y FROM u)`. -/
def parenQ1 : Tok :=
  .group .parens
    [.atom .punct "(", .atom .dml "SELECT", .atom .ws " ",
     .group .ident [.atom .nameT "y"], .atom .ws " ", .atom .keyword "FROM",
     .atom .ws " ", .group .ident [.atom .nameT "u"], .atom .punct ")"]

/-- Token tree of `SELECT * FROM t WHERE x IN (SELECT y FROM u)`. -/
def stmtQ1 : Tok :=
  .group .statement
    [.atom .dml "SELECT", .atom .ws " ", .atom .wildcard "*", .atom .ws " ",
     .atom .keyword "FROM", .atom .ws " ", .group .ident [.atom .nameT "t"],
     .atom .ws " ",
     .group .whereG
       [.atom .keyword "WHERE", .atom .ws " ", .group .ident [.atom .nameT "x"],
        .atom .ws " ", .atom .keyword "IN", .atom .ws " ", parenQ1]]

/-- Token tree of `(SELECT y FROM u WHERE z IN (SELECT w FROM v))`. -/
def parenQ2 : Tok :=
  .group .parens
    [.atom .punct "(", .atom .dml "SELECT", .atom .ws " ",
     .group .ident [.atom .nameT "y"], .atom .ws " ", .atom .keyword "FROM",
     .atom .ws " ", .group .ident [.atom .nameT "u"], .atom .ws " ",
     .group .whereG
       [.atom .keyword "WHERE", .atom .ws " ",
        .group .ident [.atom .nameT "z"], .atom .ws " ", .atom .keyword "IN",
        .atom .ws " ",
        .group .parens
          [.atom .punct "(", .atom .dml "SELECT", .atom .ws " ",
           .group .ident [.atom .nameT "w"], .atom .ws " ",
           .atom .keyword "FROM", .atom .ws " ",
           .group .ident [.atom .nameT "v"], .atom .punct ")"]],
     .atom .punct ")"]

/-- Token tree of
`SELECT * FROM t WHERE x IN (SELECT y FROM u WHERE z IN (SELECT w FROM v))`. -/
def stmtQ2 : Tok :=
  .group .statement
    [.atom .dml "SELECT", .atom .ws " ", .atom .wildcard "*", .atom .ws " ",
     .atom .keyword "FROM", .atom .ws " ", .group .ident [.atom .nameT "t"],
     .atom .ws " ",
     .group .whereG
       [.atom .keyword "WHERE", .atom .ws " ", .group .ident [.atom .nameT "x"],
        .atom .ws " ", .atom .keyword "IN", .atom .ws " ", parenQ2]]

/-- Token tree of `SELECT * FROM t WHERE (x = (SELECT 1))`: the outer
parenthesized group starts with `(` and contains `SELECT`, but its first
non-whitespace token after the `(` is the identifier `x`, not `SELECT`. -/
def stmtC4cex : Tok :=
  .group .statement
    [.atom .dml "SELECT", .atom .ws " ", .atom .wildcard "*", .atom .ws " ",
     .atom .keyword "FROM", .atom .ws " ", .group .ident [.atom .nameT "t"],
     .atom .ws " ",
     .group .whereG
       [.atom .keyword "WHERE", .atom .ws " ",
        .group .parens
          [.atom .punct "(",
           .group .comparison
             [.group .ident [.atom .nameT "x"], .atom .ws " ",
              .atom .opT "=", .atom .ws " ",
              .group .parens
                [.atom .punct "(", .atom .dml "SELECT", .atom .ws " ",
                 .atom .lit "1", .atom .punct ")"]],
           .atom .punct ")"]]]

/-- C4 (counterexample): `_count_subquery_depth` counts any parenthesized
group containing `SELECT` anywhere, not only groups whose first
non-whitespace token is `SELECT`; on the tree of
`SELECT * FROM t WHERE (x = (SELECT 1))` the code yields 2 while the claimed
first-token rule yields 1. -/
theorem claim_C4_counterexample :
    subquery_depth stmtC4cex = 2
      ∧ specDepthClaim stmtC4cex = 1 := by
  decide

/-- C4 (amended): `subquery_depth` counts parenthesized groups whose stripped
text starts with `(` and contains `SELECT` anywhere (case-insensitively),
with the depth of such a group equal to 1 plus the maximum over its
qualifying descendants and the root depth the maximum over all such nodes
(0 when none); the claim's concrete examples hold: `SELECT * FROM t` has
depth 0, one `IN (SELECT …)` level has depth 1, a further nesting level has
depth 2. -/
theorem subquery_depth_characterization :
    (∀ t : Tok, subquery_depth t = specDepthCode t)
      ∧ subquery_depth stmtQ0 = 0
      ∧ subquery_depth stmtQ1 = 1
      ∧ subquery_depth stmtQ2 = 2 := by
  refine ⟨fun t => ?_, by decide, by decide, by decide⟩
  rw [subquery_depth, count_subquery_depth_eq t 0, Nat.zero_add]

/-- Schema model: table name to column list, as the validator consumes
`schema_info[table]['columns']`. -/
abbrev Schema := List (String × List String)

def tableMsg (t : String) : String :=
  "Table '" ++ t ++ "' not found in schema"

def colTableMsg (c t : String) : String :=
  "Column '" ++ c ++ "' not found in table '" ++ t ++ "'"

def colAnyMsg (c : String) : String :=
  "Column '" ++ c ++ "' not found in any table"

/-- Python truthiness of the optional table qualifier (`if table:` is false
for `None` and for the empty string). -/
def pyTruthy : Option String → Bool
  | none => false
  | some s => !(s == "")

/-- Table-name loop of `_validate_schema`, with the imperative error
accumulator made explicit. -/
def tablesLoop (schema : Schema) : List String → List String → List String
  | acc, [] => acc
  | acc, t :: ts =>
    tablesLoop schema
      (acc ++ if (List.lookup t schema).isNone then [tableMsg t] else []) ts

/-- Column loop of `_validate_schema`: qualified columns are checked against
their table when the qualifier is truthy and a schema key; falsy qualifiers
fall to the check over all tables. -/
def colsLoop (schema : Schema) :
    List String → List (Option String × String) → List String
  | acc, [] => acc
  | acc, (tq, c) :: rest =>
    let add :=
      if pyTruthy tq then
        match tq with
        | some t =>
          match List.lookup t schema with
          | some tcols => if c ∈ tcols then [] else [colTableMsg c t]
          | none => []
        | none => []
      else
        if schema.any (fun p => c ∈ p.2) then [] else [colAnyMsg c]
    colsLoop schema (acc ++ add) rest

/-- Embedding of the error production of `SQLValidator._validate_schema`
(validator.py, lines 138-175), applied to the extracted table and column
reference lists. -/
def validate_schema_errs (schema : Schema) (tables : List String)
    (cols : List (Option String × String)) : List String :=
  colsLoop schema (tablesLoop schema [] tables) cols

/-- Spec-side per-table violation (from the spec's words). -/
def tableViolSpec (schema : Schema) (t : String) : Option String :=
  if (List.lookup t schema).isNone then some (tableMsg t) else none

/-- Spec-side per-column-reference violation, following the claim: an
unqualified reference is flagged exactly when the column is in no table's
column set; a qualified reference whose table is a schema key is flagged
exactly when the column is absent from that table's column set; other
qualified references produce nothing. -/
def colViolSpec (schema : Schema) : Option String × String → Option String
  | (none, c) =>
    if schema.any (fun p => c ∈ p.2) then none else some (colAnyMsg c)
  | (some t, c) =>
    match List.lookup t schema with
    | some tcols => if c ∈ tcols then none else some (colTableMsg c t)
    | none => none

theorem tablesLoop_eq (schema : Schema) (acc : List String) (ts : List String) :
    tablesLoop schema acc ts = acc ++ ts.filterMap (tableViolSpec schema) := by
  induction ts generalizing acc with
  | nil => simp [tablesLoop]
  | cons t ts ih =>
    rw [tablesLoop, ih]
    by_cases h : (List.lookup t schema).isNone <;>
      simp [tableViolSpec, h]

theorem colsLoop_eq (schema : Schema) (acc : List String)
    (cols : List (Option String × String))
    (h : ∀ p ∈ cols, p.1 ≠ some "") :
    colsLoop schema acc cols = acc ++ cols.filterMap (colViolSpec schema) := by
  induction cols generalizing acc with
  | nil => simp [colsLoop]
  | cons p rest ih =>
    obtain ⟨tq, c⟩ := p
    have hrest : ∀ p ∈ rest, p.1 ≠ some "" :=
      fun p hp => h p (List.mem_cons_of_mem _ hp)
    cases tq with
    | none =>
      simp only [colsLoop]
      rw [ih _ hrest]
      simp only [pyTruthy, colViolSpec, Bool.false_eq_true, if_false,
        List.filterMap_cons]
      split <;> simp
    | some t =>
      have ht : t ≠ "" := by
        intro he
        exact (h (some t, c) (List.mem_cons_self _ _)) (by rw [he])
      have hbe : (t == "") = false := by simp [ht]
      simp only [colsLoop]
      rw [ih _ hrest]
      simp only [pyTruthy, hbe, Bool.not_false, if_true, colViolSpec,
        List.filterMap_cons]
      cases hl : List.lookup t schema with
      | none => simp
      | some tcols => by_cases hc : c ∈ tcols <;> simp [hc]

/-- C7: the schema-conformance errors are exactly, in order, one violation
per unknown table followed by one violation per offending column reference:
an unqualified column is flagged iff it is in no table's column set, and a
qualified `table.column` whose table is a schema key is flagged iff the
column is absent from that table's column set (qualifiers that are schema
keys only; references with an empty-string qualifier are outside the claim
and excluded by hypothesis). -/
theorem validate_schema_errs_spec (schema : Schema) (tables : List String)
    (cols : List (Option String × String))
    (h : ∀ p ∈ cols, p.1 ≠ some "") :
    validate_schema_errs schema tables cols
      = tables.filterMap (tableViolSpec schema)
        ++ cols.filterMap (colViolSpec schema) := by
  rw [validate_schema_errs, colsLoop_eq schema _ cols h,
    tablesLoop_eq schema [] tables, List.nil_append]

/-- C7 (witness): concrete schema and references exercising both the flagged
and unflagged cases. -/
theorem validate_schema_errs_spec_witness :
    validate_schema_errs [("t", ["a", "b"])] ["t", "u"]
        [(none, "a"), (none, "zz"), (some "t", "c"), (some "v", "d")]
      = ["t", "u"].filterMap (tableViolSpec [("t", ["a", "b"])])
        ++ [(none, "a"), (none, "zz"), (some "t", "c"),
            (some "v", "d")].filterMap (colViolSpec [("t", ["a", "b"])]) :=
  validate_schema_errs_spec _ _ _ (by decide)

/-- Whitespace or comment token, skipped by
`token_first(skip_ws=True, skip_cm=True)`. -/
def isWsOrComment : Tok → Bool
  | .atom .ws _ => true
  | .atom .commentT _ => true
  | _ => false

def token_first : List Tok → Option Tok
  | [] => none
  | t :: ts => if isWsOrComment t then token_first ts else some t

/-- Embedding of `SQLValidator._is_select_only` (validator.py, lines 71-77):
the first non-whitespace token must have `ttype DML` with value `SELECT`. -/
def is_select_only (st : Tok) : Bool :=
  match token_first st.children with
  | some (.atom .dml s) => upper s.data = "SELECT".data
  | _ => false

/-- Embedding of `SQLValidator._check_complexity` (validator.py,
lines 79-98). -/
def check_complexity (maxJ maxD : Nat) (st : Tok) : List String :=
  let jc := count_joins st.chars
  let sd := subquery_depth st
  (if jc > maxJ then
      ["Too many JOINs: " ++ toString jc
        ++ " (max allowed: " ++ toString maxJ ++ ")"]
    else [])
    ++ (if sd > maxD then
        ["Subquery nesting too deep: " ++ toString sd
          ++ " (max allowed: " ++ toString maxD ++ ")"]
      else [])

/-- Keyword token equal to `FROM` or containing `JOIN`, which arms the
table-extraction flag of `_extract_tables`. -/
def isFromOrJoinKw : Tok → Bool
  | .atom .keyword s =>
    upper s.data = "FROM".data || containsSeq ("JOIN".data) (upper s.data)
  | _ => false

/-- Model of sqlparse `IdentifierList.get_identifiers`: child tokens that are
neither whitespace nor punctuation. -/
def get_identifiers (cs : List Tok) : List Tok :=
  cs.filter fun t =>
    match t with
    | .atom .ws _ => false
    | .atom .punct _ => false
    | _ => true

/-- Child tokens after the first `.` punctuation, if any (model of sqlparse's
dot lookup in `get_real_name`). -/
def afterDot : List Tok → Option (List Tok)
  | [] => none
  | .atom .punct "." :: rest => some rest
  | _ :: rest => afterDot rest

/-- First name-like child token (model of sqlparse `_get_first_name`). -/
def firstName : List Tok → Option String
  | [] => none
  | .atom .nameT s :: _ => some s
  | .atom .wildcard s :: _ => some s
  | _ :: rest => firstName rest

/-- Model of sqlparse `Identifier.get_real_name`: the first name after the
first dot, else the first name. -/
def get_real_name (cs : List Tok) : Option String :=
  match afterDot cs with
  | some rest => firstName rest
  | none => firstName cs

/-- Quote characters stripped by `.strip('`"[]')` (the first entry is the
backquote). -/
def qChars : List Char := [Char.ofNat 96, '"', '[', ']']

def stripQuotes (l : List Char) : List Char :=
  ((l.dropWhile (· ∈ qChars)).reverse.dropWhile (· ∈ qChars)).reverse

/-- Embedding of `SQLValidator._get_table_name` plus the caller's truthiness
filter: plain tokens carry no real name, a falsy (empty) name yields none. -/
def tableNameOrNone : Tok → Option String
  | .atom _ _ => none
  | .group _ cs =>
    match get_real_name cs with
    | some s =>
      if s = "" then none
      else
        let stripped := String.mk (stripQuotes s.data)
        if stripped = "" then none else some stripped
    | none => none

/-- Embedding of `SQLValidator._extract_tables` (validator.py,
lines 177-202): note that the `from_seen` flag is cleared by the very next
token after `FROM`/`JOIN`, whatever it is. -/
def extract_tables_go : List Tok → Bool → List String
  | [], _ => []
  | t :: ts, fromSeen =>
    (if fromSeen then
        match t with
        | .group .identList cs =>
          (get_identifiers cs).filterMap tableNameOrNone
        | .group .ident cs => (tableNameOrNone (.group .ident cs)).toList
        | _ => []
      else []) ++ extract_tables_go ts (isFromOrJoinKw t)

def extract_tables (st : Tok) : List String :=
  extract_tables_go st.children false

/-- Embedding of `SQLValidator._parse_identifier` (validator.py,
lines 234-252). -/
def parse_identifier (t : Tok) : Option (Option String × String) :=
  let nm := t.chars
  if nm.contains '.' then
    match nm.splitOn '.' with
    | [p1, p2] =>
      some (some (String.mk (stripQuotes p1)), String.mk (stripQuotes p2))
    | _ => none
  else
    let column := stripQuotes nm
    if upper column ∈ ["SELECT".data, "FROM".data, "WHERE".data,
        "AS".data, "*".data] then none
    else some (none, String.mk column)

/-- Embedding of `SQLValidator._extract_columns` (validator.py,
lines 211-232). -/
def extract_columns (st : Tok) : List (Option String × String) :=
  st.children.foldr
    (fun t acc =>
      (match t with
        | .group .identList cs => (get_identifiers cs).filterMap parse_identifier
        | .group .ident cs => (parse_identifier (.group .ident cs)).toList
        | _ => []) ++ acc)
    []

/-- Embedding of `SQLValidator._validate_schema` (validator.py,
lines 138-175). -/
def validate_schema (schema : Schema) (st : Tok) : List String :=
  validate_schema_errs schema (extract_tables st) (extract_columns st)

/-- Embedding of `SQLValidator.validate` (validator.py, lines 31-69),
parametric in the sqlparse front end (`parse q = none` models
`sqlparse.parse(q)` returning no statements). -/
def validate (parse : String → Option Tok) (schema : Schema)
    (maxJ maxD : Nat) (q : String) : Bool × List String :=
  match parse q with
  | none => (false, ["Invalid SQL syntax"])
  | some st =>
    let errs :=
      (if is_select_only st then [] else ["Only SELECT queries are allowed"])
        ++ check_complexity maxJ maxD st
        ++ validate_schema schema st
        ++ check_dangerous_patterns q.data
    (errs.isEmpty, errs)

/-- C3: `validate` always returns a pair whose boolean is true exactly when
the violation list is empty, and on every parseable input the violation list
is the in-order concatenation of the statement-kind, complexity,
schema-conformance and dangerous-pattern families (so no family is skipped
when an earlier one produced violations). -/
theorem validate_structure (parse : String → Option Tok) (schema : Schema)
    (maxJ maxD : Nat) (q : String) :
    ((validate parse schema maxJ maxD q).1 = true
        ↔ (validate parse schema maxJ maxD q).2 = [])
      ∧ (∀ st, parse q = some st →
          (validate parse schema maxJ maxD q).2
            = (if is_select_only st then []
                else ["Only SELECT queries are allowed"])
              ++ check_complexity maxJ maxD st
              ++ validate_schema schema st
              ++ check_dangerous_patterns q.data) := by
  cases hp : parse q with
  | none => simp [validate, hp]
  | some st => simp [validate, hp]

/-- C3 (witness): instantiating the concatenation on a concrete parse
result. -/
theorem validate_structure_witness :
    (validate (fun _ => some stmtQ0) [("t", ["a"])] 3 3 "SELECT * FROM t").2
      = (if is_select_only stmtQ0 then []
          else ["Only SELECT queries are allowed"])
        ++ check_complexity 3 3 stmtQ0
        ++ validate_schema [("t", ["a"])] stmtQ0
        ++ check_dangerous_patterns ("SELECT * FROM t".data) :=
  (validate_structure (fun _ => some stmtQ0) [("t", ["a"])] 3 3
    "SELECT * FROM t").2 stmtQ0 rfl

/-- Value of a cost-metric dictionary entry (int or bool). -/
inductive MVal where
  | natV (n : Nat)
  | boolV (b : Bool)
deriving DecidableEq

/-- Embedding of `SQLValidator._calculate_complexity_score` (validator.py,
lines 299-314). -/
def calculate_complexity_score (st : Tok) : Nat :=
  let s := upper st.chars
  1 + count_joins st.chars * 2 + subquery_depth st * 3
    + (if containsSeq ("GROUP BY".data) s then 2 else 0)
    + (if containsSeq ("ORDER BY".data) s then 1 else 0)
    + (if containsSeq ("DISTINCT".data) s then 1 else 0)

/-- Embedding of `SQLValidator.estimate_cost` (validator.py, lines 279-297)
as the key/value dictionary it builds.  The bare `except` branch, taken in
particular when `sqlparse.parse` yields no statement (empty input makes
`parsed[0]` raise IndexError), returns a dictionary with the single key
`estimated_complexity`. -/
def estimate_cost (parse : String → Option Tok) (q : String) :
    List (String × MVal) :=
  match parse q with
  | some st =>
    [("join_count", .natV (count_joins st.chars)),
     ("subquery_depth", .natV (subquery_depth st)),
     ("has_aggregation", .boolV (containsSeq ("GROUP BY".data) (upper q.data))),
     ("has_order", .boolV (containsSeq ("ORDER BY".data) (upper q.data))),
     ("estimated_complexity", .natV (calculate_complexity_score st))]
  | none => [("estimated_complexity", .natV 0)]

/-- Token tree of `SELECT a FROM t` as sqlparse produces it. -/
def stmtQA : Tok :=
  .group .statement
    [.atom .dml "SELECT", .atom .ws " ", .group .ident [.atom .nameT "a"],
     .atom .ws " ", .atom .keyword "FROM", .atom .ws " ",
     .group .ident [.atom .nameT "t"]]

/-- Concrete front end mapping `SELECT a FROM t` to its tree. -/
def parseQA : String → Option Tok :=
  fun s => if s = "SELECT a FROM t" then some stmtQA else none

/-- C8: for a parse result whose text is the query itself, the
`estimated_complexity` entry equals
`1 + 2*join_count + 3*subquery_depth + 2*[GROUP BY] + 1*[ORDER BY] +
1*[DISTINCT]` where the bracketed terms test presence in the uppercased
query, and the published `join_count`/`subquery_depth`/`has_aggregation`/
`has_order` entries carry exactly those constituent values; in particular
`estimate_cost` on `SELECT a FROM t` yields `estimated_complexity = 1`. -/
theorem estimate_cost_formula (parse : String → Option Tok) (q : String)
    (st : Tok) (hp : parse q = some st) (hc : st.chars = q.data) :
    (List.lookup "join_count" (estimate_cost parse q)
        = some (.natV (count_joins q.data))
      ∧ List.lookup "subquery_depth" (estimate_cost parse q)
        = some (.natV (subquery_depth st))
      ∧ List.lookup "has_aggregation" (estimate_cost parse q)
        = some (.boolV (containsSeq ("GROUP BY".data) (upper q.data)))
      ∧ List.lookup "has_order" (estimate_cost parse q)
        = some (.boolV (containsSeq ("ORDER BY".data) (upper q.data)))
      ∧ List.lookup "estimated_complexity" (estimate_cost parse q)
        = some (.natV (1 + 2 * count_joins q.data + 3 * subquery_depth st
            + (if containsSeq ("GROUP BY".data) (upper q.data) then 2 else 0)
            + (if containsSeq ("ORDER BY".data) (upper q.data) then 1 else 0)
            + (if containsSeq ("DISTINCT".data) (upper q.data) then 1 else 0))))
      ∧ List.lookup "estimated_complexity" (estimate_cost parseQA "SELECT a FROM t")
        = some (.natV 1) := by
  constructor
  · simp only [estimate_cost, hp, calculate_complexity_score, hc,
      List.lookup]
    refine ⟨by simp, by simp, by simp, by simp, by simp [Nat.mul_comm]⟩
  · decide

/-- C8 (witness): instantiating the formula on the concrete front end for
`SELECT a FROM t`. -/
theorem estimate_cost_formula_witness :
    List.lookup "join_count" (estimate_cost parseQA "SELECT a FROM t")
      = some (.natV (count_joins ("SELECT a FROM t".data))) :=
  ((estimate_cost_formula parseQA "SELECT a FROM t" stmtQA rfl
    (by decide)).1).1

/-- Front end with the behaviour of sqlparse on the empty string:
`sqlparse.parse('')` yields no statements, so `estimate_cost` hits its bare
`except` branch there. -/
def parseEmptyFails : String → Option Tok :=
  fun s =>
    if s = "" then none else some (.group .statement [.atom .nameT s])

/-- C9 (counterexample): on the empty input the cost estimator returns a
dictionary holding only `estimated_complexity = 0`; the other four
documented fields, `join_count` among them, are absent, refuting the claim
that every input yields all five fields. -/
theorem claim_C9_counterexample :
    List.lookup "join_count" (estimate_cost parseEmptyFails "") = none
      ∧ List.lookup "estimated_complexity" (estimate_cost parseEmptyFails "")
        = some (.natV 0) := by
  decide

/-- C9 (amended): `estimate_cost` is total, but only parseable inputs yield
all five fields (in order `join_count`, `subquery_depth`, `has_aggregation`,
`has_order`, `estimated_complexity`); an unparseable input yields the
single-field dictionary `estimated_complexity = 0`. -/
theorem estimate_cost_fields (parse : String → Option Tok) (q : String) :
    (∀ st, parse q = some st →
        (estimate_cost parse q).map Prod.fst
          = ["join_count", "subquery_depth", "has_aggregation",
             "has_order", "estimated_complexity"])
      ∧ (parse q = none →
          estimate_cost parse q = [("estimated_complexity", .natV 0)]) := by
  cases hp : parse q <;> simp [estimate_cost, hp]

/-- C9 (witness): both branches of the amended statement on the model front
end. -/
theorem estimate_cost_fields_witness :
    (estimate_cost parseEmptyFails "SELECT 1").map Prod.fst
      = ["join_count", "subquery_depth", "has_aggregation",
         "has_order", "estimated_complexity"]
      ∧ estimate_cost parseEmptyFails "" = [("estimated_complexity", .natV 0)] :=
  ⟨(estimate_cost_fields parseEmptyFails "SELECT 1").1
      (.group .statement [.atom .nameT "SELECT 1"]) rfl,
   (estimate_cost_fields parseEmptyFails "").2 rfl⟩

/-- Result record of `QueryExecutor.execute_query`, without the timing field
(wall-clock time is outside the model).  Rows are ordered key/value
dictionaries as returned by `pymysql.cursors.DictCursor`. -/
structure ExecResult where
  success : Bool
  data : List (List (String × String))
  columns : List String
  row_count : Nat
  truncated : Bool
  error : Option String

/-- Initial result dictionary of `execute_query` (query_executor.py,
lines 75-83). -/
def emptyResult : ExecResult :=
  { success := false, data := [], columns := [], row_count := 0,
    truncated := false, error := none }

/-- Result shaping of a successful fetch in `execute_query`
(query_executor.py, lines 85-97): the `if rows:` block fills the fields only
for a non-empty row list, then `success` is set. -/
def shape_rows (maxRows : Nat) (rows : List (List (String × String))) :
    ExecResult :=
  let r :=
    match rows with
    | [] => emptyResult
    | r0 :: _ =>
      { emptyResult with
          data := rows
          columns := r0.map Prod.fst
          row_count := rows.length
          truncated := decide (rows.length ≥ maxRows) }
  { r with success := true }

/-- C10: a successful execution that returns zero rows yields
`success = true`, empty data, an empty column-name sequence, `row_count = 0`
and `truncated = false`. -/
theorem execute_zero_rows (maxRows : Nat)
    (rows : List (List (String × String))) (h : rows = []) :
    (shape_rows maxRows rows).success = true
      ∧ (shape_rows maxRows rows).data = []
      ∧ (shape_rows maxRows rows).columns = []
      ∧ (shape_rows maxRows rows).row_count = 0
      ∧ (shape_rows maxRows rows).truncated = false := by
  subst h
  simp [shape_rows, emptyResult]

/-- C10 (witness): the zero-row case at a concrete row cap. -/
theorem execute_zero_rows_witness :
    (shape_rows 1000 ([] : List (List (String × String)))).success = true
      ∧ (shape_rows 1000 ([] : List (List (String × String)))).data = []
      ∧ (shape_rows 1000 ([] : List (List (String × String)))).columns = []
      ∧ (shape_rows 1000 ([] : List (List (String × String)))).row_count = 0
      ∧ (shape_rows 1000 ([] : List (List (String × String)))).truncated = false :=
  execute_zero_rows 1000 [] rfl

end NL2SQL
